import Mathlib

/-!
Shallow embedding of the event_itam backend (Python/FastAPI/SQLAlchemy) in Lean 4.

Database tables are modelled as Lean lists of row structures; each repository or
service operation becomes a pure function that takes the database state (plus the
fresh ids that `uuid4()` would generate and the timestamp that `datetime.now()`
would return) and produces the next state.  SQLAlchemy's `session.begin()`
transaction blocks are modelled by `runTransaction`: the body produces either a
new state (commit) or an error (rollback, original state kept).  Failure points
that depend on the external database driver (an `IntegrityError` from an insert,
the duplicate pre-check scan throwing) are injected as explicit oracle arguments.
-/

namespace EventItam

/-- Row of the `coworking_booking` table (src/persistent/tables.py).
Ids and dates are abstracted to `Nat`; only equality on them matters. -/
structure Booking where
  id : Nat
  coworkingId : Nat
  bookingDate : Nat
  customerName : String
  customerPhone : String
  deriving DecidableEq, Repr

/-- Row of the `coworking_occupancy` table (src/persistent/tables.py). -/
structure OccupancyRow where
  id : Nat
  coworkingId : Nat
  date : Nat
  occupancyPercentage : Nat
  deriving DecidableEq, Repr

/-- Row of the `coworking_space` table (src/persistent/tables.py). -/
structure SpaceRow where
  id : Nat
  name : String
  description : String
  location : String
  imagePath : Option String
  deriving DecidableEq, Repr

/-- The coworking side of the database: the three tables touched by
`CoworkingRepository`. -/
structure CoworkingDB where
  spaces : List SpaceRow
  bookings : List Booking
  occupancy : List OccupancyRow
  deriving DecidableEq, Repr

/-- The WHERE clause `coworking_booking.c.coworking_id == coworking_id AND
coworking_booking.c.booking_date == booking_date` used by `_update_occupancy`. -/
def bookingMatches (cid d : Nat) (b : Booking) : Bool :=
  b.coworkingId == cid && b.bookingDate == d

/-- The WHERE clause on `(coworking_occupancy.c.coworking_id,
coworking_occupancy.c.date)` used by `_update_occupancy`. -/
def occMatches (cid d : Nat) (r : OccupancyRow) : Bool :=
  r.coworkingId == cid && r.date == d

/-- `select(func.count()).where(...)`: the number of bookings stored for one
(coworking_id, booking_date) pair. -/
def countBookings (bs : List Booking) (cid d : Nat) : Nat :=
  (bs.filter (bookingMatches cid d)).length

/-- `min(int((booking_count / max_bookings) * 100), 100)` with `max_bookings = 10`
(CoworkingRepository._update_occupancy).  For a natural booking count the Python
float expression `int((count / 10) * 100)` evaluates to exactly `10 * count`
(the exact rational value `count / 10 * 100` is the integer `10 * count`, and
the float rounding never crosses an integer boundary for these inputs), so the
percentage is `min (10 * count) 100`. -/
def occupancyPct (count : Nat) : Nat :=
  min (10 * count) 100

/-- `CoworkingRepository._update_occupancy`: count the bookings of the pair,
compute the percentage, then update the existing occupancy row for the pair if
one exists (the UPDATE's WHERE touches every row of the pair) or insert a fresh
row with a fresh id. -/
def updateOccupancy (db : CoworkingDB) (cid d : Nat) (freshOccId : Nat) : CoworkingDB :=
  let pct := occupancyPct (countBookings db.bookings cid d)
  match db.occupancy.find? (occMatches cid d) with
  | some _ =>
      { db with occupancy :=
          db.occupancy.map fun r =>
            if occMatches cid d r then { r with occupancyPercentage := pct } else r }
  | none =>
      { db with occupancy :=
          db.occupancy ++ [{ id := freshOccId, coworkingId := cid, date := d,
                             occupancyPercentage := pct }] }

/-- The booking INSERT executed first inside `create_booking`'s transaction. -/
def insertBooking (db : CoworkingDB) (cid d : Nat) (nm ph : String) (bid : Nat) :
    CoworkingDB :=
  { db with bookings :=
      db.bookings ++ [{ id := bid, coworkingId := cid, bookingDate := d,
                        customerName := nm, customerPhone := ph }] }

/-- `CoworkingRepository.create_booking`, success path: insert the booking row,
then run `_update_occupancy` on the state that already contains it. -/
def createBooking (db : CoworkingDB) (cid d : Nat) (nm ph : String)
    (bid occId : Nat) : CoworkingDB :=
  updateOccupancy (insertBooking db cid d nm ph bid) cid d occId

/-- `create_booking` repeated `n` times for one (coworking_id, booking_date)
pair; the fresh ids `uuid4()` would draw are replaced by distinct naturals. -/
def createBookingsN (db : CoworkingDB) (cid d : Nat) (nm ph : String) :
    Nat → CoworkingDB
  | 0 => db
  | n + 1 => createBooking (createBookingsN db cid d nm ph n) cid d nm ph
      (2 * n) (2 * n + 1)

/-- Body of `create_booking`'s `session.begin()` block.  The booking INSERT
itself cannot fail in the sequential model, but the occupancy upsert talks to
the database again; `occOk = false` injects the upsert raising. -/
def bookingTxnBody (cid d : Nat) (nm ph : String) (bid occId : Nat)
    (occOk : Bool) (db : CoworkingDB) : Except String CoworkingDB :=
  let dbInserted := insertBooking db cid d nm ph bid
  if occOk then Except.ok (updateOccupancy dbInserted cid d occId)
  else Except.error "occupancy upsert failed"

/-- `async with session.begin()`: run the body; commit its state on success,
roll every write back (keep the incoming state) when it raises. -/
def runTransaction (db : CoworkingDB)
    (body : CoworkingDB → Except String CoworkingDB) : CoworkingDB × Bool :=
  match body db with
  | Except.ok db2 => (db2, true)
  | Except.error _ => (db, false)

/-- `CoworkingRepository.create_booking` with the transaction boundary made
explicit: both steps run inside one `session.begin()` block. -/
def createBookingRepo (db : CoworkingDB) (cid d : Nat) (nm ph : String)
    (bid occId : Nat) (occOk : Bool) : CoworkingDB × Bool :=
  runTransaction db (bookingTxnBody cid d nm ph bid occId occOk)

/-- `CoworkingRepository.delete_coworking_space`: DELETE by id, the schema's
`ondelete="CASCADE"` removes the space's bookings and occupancy rows, and the
function returns `True` unconditionally. -/
def deleteCoworkingSpaceRepo (db : CoworkingDB) (cid : Nat) : CoworkingDB × Bool :=
  ({ spaces := db.spaces.filter fun s => s.id != cid,
     bookings := db.bookings.filter fun b => b.coworkingId != cid,
     occupancy := db.occupancy.filter fun r => r.coworkingId != cid }, true)

/-! Helper lemmas about list filtering, shared by several claims. -/

lemma find?_eq_filter_head? {α : Type} (p : α → Bool) (l : List α) :
    l.find? p = (l.filter p).head? := by
  induction l with
  | nil => rfl
  | cons a l ih =>
      by_cases h : p a = true
      · rw [List.find?_cons_of_pos _ h, List.filter_cons_of_pos h]
        rfl
      · rw [List.find?_cons_of_neg _ h, List.filter_cons_of_neg h]
        exact ih

lemma filter_map_comm {α : Type} (p : α → Bool) (f : α → α)
    (hf : ∀ r, p (f r) = p r) (l : List α) :
    (l.map f).filter p = (l.filter p).map f := by
  induction l with
  | nil => rfl
  | cons a l ih =>
      cases h : p a <;> simp [List.filter_cons, hf, h, ih]

lemma countBookings_append (bs : List Booking) (b : Booking) (cid d : Nat) :
    countBookings (bs ++ [b]) cid d =
      countBookings bs cid d + (if bookingMatches cid d b then 1 else 0) := by
  unfold countBookings
  cases h : bookingMatches cid d b <;>
    simp [List.filter_append, List.filter_cons, h]

lemma occMatches_update (c' d' cid d pct : Nat) (r : OccupancyRow) :
    occMatches c' d'
      (if occMatches cid d r then { r with occupancyPercentage := pct } else r) =
      occMatches c' d' r := by
  cases h : occMatches cid d r <;> simp [h, occMatches]

/-- Invariant driving the C1 induction: starting from a state with no booking
and no occupancy row for the pair, `n ≥ 1` bookings leave exactly `n` matching
bookings and exactly the one occupancy row inserted by the first call, its
percentage recomputed to `occupancyPct n`. -/
lemma createBookingsN_state (db : CoworkingDB) (cid d : Nat) (nm ph : String)
    (hb : countBookings db.bookings cid d = 0)
    (ho : db.occupancy.filter (occMatches cid d) = []) :
    ∀ n : Nat, 1 ≤ n →
      countBookings (createBookingsN db cid d nm ph n).bookings cid d = n ∧
      (createBookingsN db cid d nm ph n).occupancy.filter (occMatches cid d) =
        [{ id := 1, coworkingId := cid, date := d,
           occupancyPercentage := occupancyPct n }] := by
  intro n
  induction n with
  | zero => intro h; exact absurd h (by decide)
  | succ n ih =>
      intro _
      by_cases hn : 1 ≤ n
      · obtain ⟨ihc, iho⟩ := ih hn
        constructor
        · show countBookings (createBooking (createBookingsN db cid d nm ph n)
            cid d nm ph (2 * n) (2 * n + 1)).bookings cid d = n + 1
          simp only [createBooking, updateOccupancy]
          split <;>
            simp [insertBooking, countBookings_append, bookingMatches, ihc]
        · show (createBooking (createBookingsN db cid d nm ph n)
            cid d nm ph (2 * n) (2 * n + 1)).occupancy.filter (occMatches cid d) =
            [{ id := 1, coworkingId := cid, date := d,
               occupancyPercentage := occupancyPct (n + 1) }]
          have hfind : (insertBooking (createBookingsN db cid d nm ph n)
              cid d nm ph (2 * n)).occupancy.find? (occMatches cid d) =
              some { id := 1, coworkingId := cid, date := d,
                     occupancyPercentage := occupancyPct n } := by
            rw [find?_eq_filter_head?]
            simp [insertBooking, iho]
          have hcount : countBookings (insertBooking
              (createBookingsN db cid d nm ph n) cid d nm ph (2 * n)).bookings
              cid d = n + 1 := by
            simp [insertBooking, countBookings_append, bookingMatches, ihc]
          simp only [createBooking, updateOccupancy, hfind, hcount]
          rw [filter_map_comm _ _ (occMatches_update _ _ cid d _)]
          simp [insertBooking, iho, occMatches]
      · have hn0 : n = 0 := by omega
        subst hn0
        constructor
        · simp only [createBookingsN, createBooking, updateOccupancy]
          split <;>
            simp [insertBooking, countBookings_append, bookingMatches, hb]
        · have hfind : (insertBooking db cid d nm ph 0).occupancy.find?
              (occMatches cid d) = none := by
            rw [find?_eq_filter_head?]
            simp [insertBooking, ho]
          have hcount : countBookings (insertBooking db cid d nm ph 0).bookings
              cid d = 1 := by
            simp [insertBooking, countBookings_append, bookingMatches, hb]
          simp only [createBookingsN, createBooking, updateOccupancy, hfind, hcount]
          simp [insertBooking, List.filter_append, ho, occMatches]

/-- C1: after `N ≥ 1` calls of `create_booking` for one (coworking_id,
booking_date) pair — starting from a state holding no booking and no occupancy
row for that pair — the occupancy table holds a row for the pair whose
`occupancy_percentage` is `min 100 (10 * N)`; the count behind it includes the
just-inserted booking. -/
theorem createBooking_occupancy_percentage (db : CoworkingDB) (cid d : Nat)
    (nm ph : String) (N : Nat)
    (hb : countBookings db.bookings cid d = 0)
    (ho : db.occupancy.filter (occMatches cid d) = [])
    (hN : 1 ≤ N) :
    ∃ r ∈ (createBookingsN db cid d nm ph N).occupancy,
      r.coworkingId = cid ∧ r.date = d ∧
        r.occupancyPercentage = min 100 (10 * N) := by
  obtain ⟨-, ho'⟩ := createBookingsN_state db cid d nm ph hb ho N hN
  have h1 : ∀ x ∈ List.filter (occMatches cid d)
      (createBookingsN db cid d nm ph N).occupancy,
      x ∈ (createBookingsN db cid d nm ph N).occupancy :=
    fun _ hx => List.mem_of_mem_filter hx
  rw [ho'] at h1
  refine ⟨_, h1 _ (List.mem_singleton.mpr rfl), rfl, rfl, ?_⟩
  show occupancyPct N = min 100 (10 * N)
  simp [occupancyPct, Nat.min_comm]

/-- Witness for C1: three bookings on an empty database give one occupancy row
at 30 percent. -/
theorem createBooking_occupancy_percentage_witness :
    ∃ r ∈ (createBookingsN ⟨[], [], []⟩ 7 5 "ann" "p1" 3).occupancy,
      r.coworkingId = 7 ∧ r.date = 5 ∧ r.occupancyPercentage = min 100 (10 * 3) :=
  createBooking_occupancy_percentage ⟨[], [], []⟩ 7 5 "ann" "p1" 3
    (by decide) (by decide) (by decide)

lemma filter_eq_nil_of_find?_none {α : Type} (p : α → Bool) (l : List α)
    (h : l.find? p = none) : l.filter p = [] := by
  rw [find?_eq_filter_head?] at h
  cases hf : l.filter p with
  | nil => rfl
  | cons a t => rw [hf] at h; simp at h

lemma updateOccupancy_bookings (db : CoworkingDB) (cid d oid : Nat) :
    (updateOccupancy db cid d oid).bookings = db.bookings := by
  unfold updateOccupancy
  split <;> rfl

lemma updateOccupancy_occ_none (db : CoworkingDB) (cid d oid : Nat)
    (h : db.occupancy.find? (occMatches cid d) = none) :
    (updateOccupancy db cid d oid).occupancy =
      db.occupancy ++ [{ id := oid, coworkingId := cid, date := d,
                         occupancyPercentage :=
                           occupancyPct (countBookings db.bookings cid d) }] := by
  simp only [updateOccupancy, h]

lemma updateOccupancy_occ_some (db : CoworkingDB) (cid d oid : Nat)
    (r : OccupancyRow) (h : db.occupancy.find? (occMatches cid d) = some r) :
    (updateOccupancy db cid d oid).occupancy =
      db.occupancy.map fun s =>
        if occMatches cid d s then
          { s with occupancyPercentage :=
              occupancyPct (countBookings db.bookings cid d) }
        else s := by
  simp only [updateOccupancy, h]

/-- The invariant of C4: a (coworking_id, date) pair with no booking has no
occupancy row, and a pair with at least one booking has exactly one. -/
def occupancyInvariant (db : CoworkingDB) : Prop :=
  ∀ cid d : Nat,
    (countBookings db.bookings cid d = 0 →
      db.occupancy.filter (occMatches cid d) = []) ∧
    (1 ≤ countBookings db.bookings cid d →
      (db.occupancy.filter (occMatches cid d)).length = 1)

/-- C4: every `create_booking` call preserves the occupancy invariant — it
updates the pair's existing occupancy row when one exists and inserts exactly
one fresh row otherwise, and it touches no other pair. -/
theorem createBooking_preserves_occupancy_invariant (db : CoworkingDB)
    (cid d : Nat) (nm ph : String) (bid occId : Nat)
    (hInv : occupancyInvariant db) :
    occupancyInvariant (createBooking db cid d nm ph bid occId) := by
  intro c' d'
  obtain ⟨hzero, hone⟩ := hInv c' d'
  have hcnt : countBookings (insertBooking db cid d nm ph bid).bookings c' d' =
      countBookings db.bookings c' d' +
        (if (cid == c' && d == d') then 1 else 0) := by
    simp only [insertBooking]
    rw [countBookings_append]
    rfl
  by_cases hpair : c' = cid ∧ d' = d
  · obtain ⟨rfl, rfl⟩ := hpair
    have hcnt1 : countBookings (insertBooking db c' d' nm ph bid).bookings c' d' =
        countBookings db.bookings c' d' + 1 := by simpa using hcnt
    constructor
    · intro h
      exact absurd h (by
        simp only [createBooking, updateOccupancy]
        split <;> simp [hcnt1])
    · intro _
      simp only [createBooking, updateOccupancy]
      cases hf : (insertBooking db c' d' nm ph bid).occupancy.find?
          (occMatches c' d') with
      | none =>
          have hnil : db.occupancy.filter (occMatches c' d') = [] :=
            filter_eq_nil_of_find?_none _ _ (by simpa [insertBooking] using hf)
          simp [insertBooking, List.filter_append, hnil, occMatches]
      | some r =>
          have hne : db.occupancy.filter (occMatches c' d') ≠ [] := by
            intro hnil
            rw [show (insertBooking db c' d' nm ph bid).occupancy = db.occupancy
              from rfl, find?_eq_filter_head?, hnil] at hf
            simp at hf
          have hlen : (db.occupancy.filter (occMatches c' d')).length = 1 := by
            refine hone ?_
            rcases Nat.eq_zero_or_pos (countBookings db.bookings c' d') with h0 | h0
            · exact absurd (hzero h0) hne
            · exact h0
          rw [filter_map_comm _ _ (occMatches_update _ _ c' d' _)]
          simpa [insertBooking] using hlen
  · have hm : ((cid == c') && (d == d')) = false := by
      simp only [Bool.and_eq_false_iff, beq_eq_false_iff_ne, ne_eq]
      omega
    have hcnt0 : countBookings (insertBooking db cid d nm ph bid).bookings c' d' =
        countBookings db.bookings c' d' := by simpa [hm] using hcnt
    have hrow : ∀ pct oid, occMatches c' d'
        { id := oid, coworkingId := cid, date := d,
          occupancyPercentage := pct } = false := by
      intro pct oid
      simp only [occMatches, Bool.and_eq_false_iff, beq_eq_false_iff_ne, ne_eq]
      omega
    have hbk : (createBooking db cid d nm ph bid occId).bookings =
        (insertBooking db cid d nm ph bid).bookings :=
      updateOccupancy_bookings _ _ _ _
    have hcnt0' : countBookings (createBooking db cid d nm ph bid occId).bookings
        c' d' = countBookings db.bookings c' d' := by rw [hbk]; exact hcnt0
    constructor
    · intro h
      have hnil : db.occupancy.filter (occMatches c' d') = [] :=
        hzero (by rw [← hcnt0']; exact h)
      unfold createBooking
      cases hf : (insertBooking db cid d nm ph bid).occupancy.find?
          (occMatches cid d) with
      | none =>
          rw [updateOccupancy_occ_none _ _ _ _ hf]
          simp [insertBooking, List.filter_append, hnil, hrow]
      | some r =>
          rw [updateOccupancy_occ_some _ _ _ _ _ hf,
            filter_map_comm _ _ (occMatches_update _ _ cid d _)]
          simp [insertBooking, hnil]
    · intro h
      have hlen : (db.occupancy.filter (occMatches c' d')).length = 1 :=
        hone (by rw [← hcnt0']; exact h)
      unfold createBooking
      cases hf : (insertBooking db cid d nm ph bid).occupancy.find?
          (occMatches cid d) with
      | none =>
          rw [updateOccupancy_occ_none _ _ _ _ hf]
          simp [insertBooking, List.filter_append, hrow, hlen]
      | some r =>
          rw [updateOccupancy_occ_some _ _ _ _ _ hf,
            filter_map_comm _ _ (occMatches_update _ _ cid d _)]
          simpa [insertBooking] using hlen

/-- Witness for C4: the invariant transported through a `create_booking` call
on the empty database. -/
theorem createBooking_preserves_occupancy_invariant_witness :
    occupancyInvariant (createBooking ⟨[], [], []⟩ 2 3 "bea" "p2" 4 5) :=
  createBooking_preserves_occupancy_invariant ⟨[], [], []⟩ 2 3 "bea" "p2" 4 5
    (by
      intro cid d
      refine ⟨fun _ => rfl, fun h => absurd h ?_⟩
      simp [countBookings])

/-- C5: the booking insert and the occupancy upsert share one
`session.begin()` transaction: when the occupancy step fails the whole
transaction rolls back and the state — bookings and occupancy alike — is the
incoming one with no success reported, while on success both writes commit
exactly as in the success-path `create_booking`. -/
theorem createBooking_transaction_atomic (db : CoworkingDB) (cid d : Nat)
    (nm ph : String) (bid occId : Nat) :
    createBookingRepo db cid d nm ph bid occId false = (db, false) ∧
      createBookingRepo db cid d nm ph bid occId true =
        (createBooking db cid d nm ph bid occId, true) :=
  ⟨rfl, rfl⟩

/-! Event side of the database (src/persistent/tables.py, event_repository.py,
organizer_repository.py, event_service.py). -/

/-- A timezone-aware timestamp, kept as its calendar components exactly as the
Python `datetime` attributes the code reads (`year`, `month`, `day`, `hour`,
`minute`, plus the components the duplicate pre-check ignores). -/
structure DateTimeM where
  year : Nat
  month : Nat
  day : Nat
  hour : Nat
  minute : Nat
  second : Nat
  microsecond : Nat
  tzOffsetMin : Int
  deriving DecidableEq, Repr

/-- Row of the `event` table. `createdAt`/`updatedAt` are abstract clock ticks. -/
structure EventRow where
  id : Nat
  title : String
  description : String
  shortDescription : String
  startDate : DateTimeM
  location : String
  imagePath : Option String
  createdAt : Nat
  updatedAt : Nat
  deriving DecidableEq, Repr

/-- Row of the `organizer` table. -/
structure OrganizerRow where
  id : Nat
  name : String
  description : Option String
  imagePath : Option String
  createdAt : Nat
  updatedAt : Nat
  deriving DecidableEq, Repr

/-- Row of the `event_organizer` link table. -/
structure LinkRow where
  eventId : Nat
  organizerId : Nat
  deriving DecidableEq, Repr

/-- The three tables touched by `EventService.create_event` and
`EventRepository.update_event`. -/
structure EventDB where
  events : List EventRow
  organizers : List OrganizerRow
  links : List LinkRow
  deriving DecidableEq, Repr

/-- The comparison of the duplicate pre-check in `EventService.create_event`:
year, month, day, hour and minute attributes equal; seconds, microseconds and
the timezone offset are never read. -/
def sameToMinute (a b : DateTimeM) : Bool :=
  a.year == b.year && a.month == b.month && a.day == b.day &&
    a.hour == b.hour && a.minute == b.minute

/-- The pre-check loop of `create_event`: it raises `EventDuplicateError` as
soon as some stored event has the identical title and a start date equal to the
minute — i.e. exactly when such an event exists. -/
def duplicatePrecheck (events : List EventRow) (title : String)
    (startDate : DateTimeM) : Bool :=
  events.any fun e => e.title == title && sameToMinute e.startDate startDate

/-- Python truthiness of an optional string argument (`if organizer_name:`,
`if organizer_description or organizer_image_path:`): `None` and the empty
string are falsy. -/
def isTruthyStr : Option String → Bool
  | none => false
  | some s => !(s == "")

/-- `next((org for org in organizers if org["name"] == organizer_name), None)`:
first organizer whose name is exactly the requested one. -/
def findOrganizerByName (orgs : List OrganizerRow) (name : String) :
    Option OrganizerRow :=
  orgs.find? fun o => o.name == name

/-- `OrganizerRepository.update_organizer` as `create_event` calls it (name is
never passed): set description/image when the argument is not `None`, always
bump `updated_at`. -/
def updateOrganizerFields (descr imagePath : Option String) (now : Nat)
    (o : OrganizerRow) : OrganizerRow :=
  { o with
    updatedAt := now
    description := match descr with | some s => some s | none => o.description
    imagePath := match imagePath with | some s => some s | none => o.imagePath }

/-- The organizer-resolution step of `create_event`: linear scan by exact name;
on a hit reuse the id (updating the record when a truthy description or image
path was passed), on a miss insert one fresh organizer row. -/
def resolveOrganizer (db : EventDB) (name : String)
    (descr imagePath : Option String) (freshOrgId now : Nat) : EventDB × Nat :=
  match findOrganizerByName db.organizers name with
  | some org =>
      let db2 :=
        if isTruthyStr descr || isTruthyStr imagePath then
          { db with organizers :=
              db.organizers.map fun o =>
                if o.id == org.id then updateOrganizerFields descr imagePath now o
                else o }
        else db
      (db2, org.id)
  | none =>
      ({ db with organizers :=
          db.organizers ++ [{ id := freshOrgId, name := name,
                              description := descr, imagePath := imagePath,
                              createdAt := now, updatedAt := now }] },
        freshOrgId)

/-- Whether `small` occurs at the start of `s`. -/
def charRunAt : List Char → List Char → Bool
  | [], _ => true
  | _ :: _, [] => false
  | c :: cs, a :: as_ => c == a && charRunAt cs as_

/-- Whether `pat` occurs contiguously somewhere in `s`. -/
def charRunIn (pat : List Char) : List Char → Bool
  | [] => charRunAt pat []
  | a :: as_ => charRunAt pat (a :: as_) || charRunIn pat as_

/-- The Python substring test `pat in s` used on `str(e)` of an
`IntegrityError`. -/
def strIn (pat s : String) : Bool :=
  charRunIn pat.toList s.toList

/-- The two outcomes `create_event` can fail with: the domain-level
`EventDuplicateError` and a re-raised `IntegrityError` carrying its message. -/
inductive CreateEventErr where
  | duplicate : CreateEventErr
  | integrity : String → CreateEventErr
  deriving DecidableEq, Repr

/-- Oracle for the event INSERT: either the database accepts the row or it
raises an `IntegrityError` whose `str(e)` is the given message. -/
inductive InsertOutcome where
  | ok : InsertOutcome
  | integrityErr : String → InsertOutcome
  deriving DecidableEq, Repr

/-- `EventService.create_event`.  `scanFails = true` injects the duplicate
pre-check scan raising a non-duplicate error (the service logs it and
continues); `ins` injects the outcome of the event INSERT.  The result pairs
the final database state with the call outcome: organizer writes run in their
own earlier transactions, so they persist even when the event INSERT fails. -/
def createEventS (db : EventDB)
    (title description shortDescription : String) (startDate : DateTimeM)
    (location : String)
    (imagePath organizerName organizerDescription organizerImagePath :
      Option String)
    (freshOrgId freshEventId now : Nat)
    (scanFails : Bool) (ins : InsertOutcome) :
    EventDB × Except CreateEventErr Nat :=
  if !scanFails && duplicatePrecheck db.events title startDate then
    (db, Except.error CreateEventErr.duplicate)
  else
    let resolved : EventDB × Option Nat :=
      if isTruthyStr organizerName then
        let r := resolveOrganizer db (organizerName.getD "")
          organizerDescription organizerImagePath freshOrgId now
        (r.1, some r.2)
      else (db, none)
    let db1 := resolved.1
    match ins with
    | InsertOutcome.ok =>
        let db2 : EventDB :=
          { db1 with
            events := db1.events ++
              [{ id := freshEventId, title := title, description := description,
                 shortDescription := shortDescription, startDate := startDate,
                 location := location, imagePath := imagePath,
                 createdAt := now, updatedAt := now }]
            links := match resolved.2 with
              | some oid => db1.links ++ [{ eventId := freshEventId,
                                            organizerId := oid }]
              | none => db1.links }
        (db2, Except.ok freshEventId)
    | InsertOutcome.integrityErr msg =>
        if strIn "duplicate key value violates unique constraint" msg &&
            strIn "uq_event_title_start_date" msg then
          (db1, Except.error CreateEventErr.duplicate)
        else
          (db1, Except.error (CreateEventErr.integrity msg))

/-- The per-row field patch of `EventRepository.update_event`: each supplied
(non-`None`) column is written, absent ones stay, `updated_at` is always set. -/
def applyEventUpdate (now : Nat) (title description shortDescription : Option String)
    (startDate : Option DateTimeM) (location imagePath : Option String)
    (e : EventRow) : EventRow :=
  { e with
    updatedAt := now
    title := title.getD e.title
    description := description.getD e.description
    shortDescription := shortDescription.getD e.shortDescription
    startDate := startDate.getD e.startDate
    location := location.getD e.location
    imagePath := match imagePath with | some p => some p | none => e.imagePath }

/-- `EventRepository.update_event`: UPDATE the rows matching the id with the
supplied fields; when an organizer id is supplied (a UUID is always truthy),
DELETE every link row of the event and INSERT the single new link.  Returns
`True` unconditionally. -/
def updateEventRepo (db : EventDB) (eventId : Nat)
    (title description shortDescription : Option String)
    (startDate : Option DateTimeM) (location imagePath : Option String)
    (organizerId : Option Nat) (now : Nat) : EventDB × Bool :=
  let events := db.events.map fun e =>
    if e.id == eventId then
      applyEventUpdate now title description shortDescription startDate
        location imagePath e
    else e
  let links := match organizerId with
    | some oid => (db.links.filter fun l => l.eventId != eventId) ++
        [{ eventId := eventId, organizerId := oid }]
    | none => db.links
  ({ db with events := events, links := links }, true)

/-- `EventRepository.delete_event`: DELETE by id (the schema cascades the link
and registration rows); returns `True` unconditionally. -/
def deleteEventRepo (db : EventDB) (eventId : Nat) : EventDB × Bool :=
  ({ db with events := db.events.filter fun e => e.id != eventId,
             links := db.links.filter fun l => l.eventId != eventId }, true)

/-- `OrganizerRepository.delete_organizer`: DELETE by id (cascades the link
rows); returns `True` unconditionally. -/
def deleteOrganizerRepo (db : EventDB) (organizerId : Nat) : EventDB × Bool :=
  ({ db with organizers := db.organizers.filter fun o => o.id != organizerId,
             links := db.links.filter fun l => l.organizerId != organizerId },
    true)

/-- The DELETE /events/{id} router: a 404 comes only from the existence
pre-check; afterwards the repository's success flag (always `True`) yields 204,
with the 500 branch dead. -/
def routerDeleteEventStatus (db : EventDB) (eventId : Nat) : Nat :=
  if (db.events.find? fun e => e.id == eventId).isSome then
    if (deleteEventRepo db eventId).2 then 204 else 500
  else 404

/-! Service and router layers around `create_booking`
(src/services/coworking_service.py, src/presentations/routers/coworking_router.py),
modelled for the error-propagation claim. -/

/-- What a call into `CoworkingService.create_booking` can yield at the service
boundary: a booking id, the wrapped domain error `CoworkingError` with its
message, or a raw (unwrapped) exception. -/
inductive ServiceOutcome where
  | ok : Nat → ServiceOutcome
  | coworkingError : String → ServiceOutcome
  | rawError : String → ServiceOutcome
  deriving DecidableEq, Repr

/-- `CoworkingService.create_booking`: the repository either returns an id or
raises with message `msg`; both `except IntegrityError` and `except Exception`
wrap it into `CoworkingError(f"Error creating booking: {str(e)}")`. -/
def serviceCreateBookingO (repo : Except String Nat) : ServiceOutcome :=
  match repo with
  | Except.ok bid => ServiceOutcome.ok bid
  | Except.error msg =>
      ServiceOutcome.coworkingError ("Error creating booking: " ++ msg)

/-- An HTTPException as the router raises it: status code and detail string. -/
structure HttpFailure where
  status : Nat
  detail : String
  deriving DecidableEq, Repr

/-- Outcome of the POST /coworking/{id}/booking endpoint. -/
inductive BookingApiResult where
  | success : Nat → BookingApiResult
  | failure : HttpFailure → BookingApiResult
  deriving DecidableEq, Repr

/-- The router body of `create_booking`: 404 when the existence pre-check
fails, 400 with `f"Failed to create booking: {str(e)}"` on `CoworkingError`,
and the generic detail-free 500 only for raw non-`CoworkingError` exceptions. -/
def routerCreateBookingO (found : Bool) (svc : ServiceOutcome) :
    BookingApiResult :=
  if !found then
    BookingApiResult.failure { status := 404, detail := "Coworking space not found" }
  else
    match svc with
    | ServiceOutcome.ok bid => BookingApiResult.success bid
    | ServiceOutcome.coworkingError m =>
        BookingApiResult.failure
          { status := 400, detail := "Failed to create booking: " ++ m }
    | ServiceOutcome.rawError _ =>
        BookingApiResult.failure
          { status := 500,
            detail := "Failed to create booking due to an internal error" }

/-- The full API path for a booking request: router over service over the
repository outcome. -/
def apiCreateBooking (found : Bool) (repo : Except String Nat) :
    BookingApiResult :=
  routerCreateBookingO found (serviceCreateBookingO repo)

/-! Sample data used by witnesses and counterexamples. -/

/-- A sample timestamp, 2024-01-01 10:00:00.000000 UTC. -/
def sampleDT : DateTimeM :=
  { year := 2024, month := 1, day := 1, hour := 10, minute := 0,
    second := 0, microsecond := 0, tzOffsetMin := 0 }

/-- The same minute as `sampleDT` with different seconds. -/
def sampleDT2 : DateTimeM :=
  { sampleDT with second := 30, microsecond := 250 }

/-- A sample stored event titled "T" at `sampleDT`. -/
def sampleEvent : EventRow :=
  { id := 1, title := "T", description := "d", shortDescription := "s",
    startDate := sampleDT, location := "loc", imagePath := none,
    createdAt := 0, updatedAt := 0 }

/-- An event database holding only `sampleEvent`, linked to organizer 9. -/
def sampleEventDB : EventDB :=
  { events := [sampleEvent], organizers := [], links := [⟨1, 9⟩] }

/-- The empty event database. -/
def emptyEventDB : EventDB := { events := [], organizers := [], links := [] }

/-! Claim theorems for the event service. -/

lemma duplicatePrecheck_iff (events : List EventRow) (title : String)
    (startDate : DateTimeM) :
    duplicatePrecheck events title startDate = true ↔
      ∃ e ∈ events, e.title = title ∧ sameToMinute e.startDate startDate = true := by
  simp [duplicatePrecheck, List.any_eq_true, Bool.and_eq_true, beq_iff_eq]

/-- C2: with the pre-check scan succeeding and the INSERT accepted,
`create_event` fails with `EventDuplicateError` exactly when some stored event
has the identical title and a start date equal to the minute (seconds,
microseconds and timezone offset ignored); and in that case it fails before
any organizer or event row is written — the state is untouched. -/
theorem createEvent_precheck_duplicate_iff (db : EventDB)
    (title description shortDescription : String) (startDate : DateTimeM)
    (location : String)
    (imagePath organizerName organizerDescription organizerImagePath :
      Option String)
    (freshOrgId freshEventId now : Nat) :
    ((createEventS db title description shortDescription startDate location
        imagePath organizerName organizerDescription organizerImagePath
        freshOrgId freshEventId now false InsertOutcome.ok).2 =
          Except.error CreateEventErr.duplicate ↔
      ∃ e ∈ db.events, e.title = title ∧
        sameToMinute e.startDate startDate = true)
    ∧ ((∃ e ∈ db.events, e.title = title ∧
          sameToMinute e.startDate startDate = true) →
        (createEventS db title description shortDescription startDate location
          imagePath organizerName organizerDescription organizerImagePath
          freshOrgId freshEventId now false InsertOutcome.ok).1 = db) := by
  cases hP : duplicatePrecheck db.events title startDate with
  | true =>
      refine ⟨⟨fun _ => (duplicatePrecheck_iff _ _ _).mp hP, fun _ => ?_⟩,
        fun _ => ?_⟩
      · simp [createEventS, hP]
      · simp [createEventS, hP]
  | false =>
      have hP' : ¬ duplicatePrecheck db.events title startDate = true := by
        simp [hP]
      refine ⟨⟨fun hcontr => ?_, fun hex => ?_⟩, fun h => ?_⟩
      · exfalso
        simp [createEventS, hP] at hcontr
      · exact absurd ((duplicatePrecheck_iff _ _ _).mpr hex) hP'
      · exact absurd ((duplicatePrecheck_iff _ _ _).mpr h) hP'

/-- Witness for C2: creating "T" at the same minute as the stored `sampleEvent`
(differing seconds and microseconds) fails with the duplicate error and leaves
the database untouched. -/
theorem createEvent_precheck_duplicate_iff_witness :
    (createEventS sampleEventDB "T" "dd" "ss" sampleDT2 "loc2" none none none
        none 11 12 5 false InsertOutcome.ok).2 =
      Except.error CreateEventErr.duplicate ∧
    (createEventS sampleEventDB "T" "dd" "ss" sampleDT2 "loc2" none none none
        none 11 12 5 false InsertOutcome.ok).1 = sampleEventDB := by
  have hex : ∃ e ∈ sampleEventDB.events, e.title = "T" ∧
      sameToMinute e.startDate sampleDT2 = true :=
    ⟨sampleEvent, by simp [sampleEventDB], rfl, by decide⟩
  exact ⟨(createEvent_precheck_duplicate_iff sampleEventDB "T" "dd" "ss"
      sampleDT2 "loc2" none none none none 11 12 5).1.mpr hex,
    (createEvent_precheck_duplicate_iff sampleEventDB "T" "dd" "ss"
      sampleDT2 "loc2" none none none none 11 12 5).2 hex⟩

/-- Counterexample for C3 as stated: an `IntegrityError` whose message names
the constraint `uq_event_title_start_date` but lacks the phrase
"duplicate key value violates unique constraint" is NOT converted to the
duplicate error — it propagates as the integrity error, so "names the
constraint" alone does not decide the conversion. -/
theorem createEvent_integrity_name_only_counterexample :
    strIn "uq_event_title_start_date"
        "insert failed: violates uq_event_title_start_date" = true ∧
    (createEventS emptyEventDB "T" "d" "s" sampleDT "loc" none none none none
        11 12 5 false
        (InsertOutcome.integrityErr
          "insert failed: violates uq_event_title_start_date")).2 =
      Except.error (CreateEventErr.integrity
        "insert failed: violates uq_event_title_start_date") :=
  ⟨rfl, rfl⟩

/-- C3 (amended): when the event INSERT raises an integrity error,
`create_event` converts it to the duplicate error exactly when `str(e)`
contains BOTH the phrase "duplicate key value violates unique constraint" and
the constraint name "uq_event_title_start_date"; otherwise the integrity error
propagates unchanged with its message. -/
theorem createEvent_integrity_both_substrings (db : EventDB)
    (title description shortDescription : String) (startDate : DateTimeM)
    (location : String)
    (imagePath organizerName organizerDescription organizerImagePath :
      Option String)
    (freshOrgId freshEventId now : Nat) (msg : String)
    (hpre : duplicatePrecheck db.events title startDate = false) :
    ((createEventS db title description shortDescription startDate location
        imagePath organizerName organizerDescription organizerImagePath
        freshOrgId freshEventId now false (InsertOutcome.integrityErr msg)).2 =
          Except.error CreateEventErr.duplicate ↔
      (strIn "duplicate key value violates unique constraint" msg = true ∧
        strIn "uq_event_title_start_date" msg = true))
    ∧ (¬ (strIn "duplicate key value violates unique constraint" msg = true ∧
          strIn "uq_event_title_start_date" msg = true) →
        (createEventS db title description shortDescription startDate location
          imagePath organizerName organizerDescription organizerImagePath
          freshOrgId freshEventId now false
          (InsertOutcome.integrityErr msg)).2 =
            Except.error (CreateEventErr.integrity msg)) := by
  cases h1 : strIn "duplicate key value violates unique constraint" msg <;>
    cases h2 : strIn "uq_event_title_start_date" msg <;>
      simp [createEventS, hpre, h1, h2]

/-- Witness for C3 (amended): a message carrying both substrings is converted
to the duplicate error. -/
theorem createEvent_integrity_both_substrings_witness :
    (createEventS emptyEventDB "T" "d" "s" sampleDT "loc" none none none none
        11 12 5 false
        (InsertOutcome.integrityErr
          "duplicate key value violates unique constraint uq_event_title_start_date")).2 =
      Except.error CreateEventErr.duplicate :=
  (createEvent_integrity_both_substrings emptyEventDB "T" "d" "s" sampleDT
      "loc" none none none none 11 12 5
      "duplicate key value violates unique constraint uq_event_title_start_date"
      rfl).1.mpr ⟨rfl, rfl⟩

/-- C8: when the duplicate pre-check scan fails with a non-duplicate error
(modelled by `scanFails = true`), `create_event` logs and continues: even if a
matching stored event exists, creation proceeds through organizer resolution
and the event INSERT, returning the fresh id with the event row stored. -/
theorem createEvent_scan_failure_continues (db : EventDB)
    (title description shortDescription : String) (startDate : DateTimeM)
    (location : String)
    (imagePath organizerName organizerDescription organizerImagePath :
      Option String)
    (freshOrgId freshEventId now : Nat) :
    (createEventS db title description shortDescription startDate location
        imagePath organizerName organizerDescription organizerImagePath
        freshOrgId freshEventId now true InsertOutcome.ok).2 =
      Except.ok freshEventId ∧
    ({ id := freshEventId, title := title, description := description,
       shortDescription := shortDescription, startDate := startDate,
       location := location, imagePath := imagePath, createdAt := now,
       updatedAt := now } : EventRow) ∈
      (createEventS db title description shortDescription startDate location
        imagePath organizerName organizerDescription organizerImagePath
        freshOrgId freshEventId now true InsertOutcome.ok).1.events := by
  constructor
  · simp [createEventS]
  · simp [createEventS]

/-- Counterexample for C9 as stated: a storage failure inside
`create_booking` surfaces as an HTTP 400 — not a 5xx — and its detail embeds
the underlying storage error text, so internal detail does leak. -/
theorem apiCreateBooking_detail_leak_counterexample :
    apiCreateBooking true (Except.error "connection refused") =
      BookingApiResult.failure
        { status := 400,
          detail :=
            "Failed to create booking: Error creating booking: connection refused" }
    ∧ strIn "connection refused"
        "Failed to create booking: Error creating booking: connection refused" =
        true :=
  ⟨rfl, rfl⟩

/-- C9 (amended): the service wraps every repository failure into the domain
error `CoworkingError` — no raw storage exception crosses into the API layer —
but the router then surfaces that wrapped error as a 400 whose detail embeds
the storage error message; the generic detail-free 500 fires only for raw
non-`CoworkingError` exceptions, which the service never emits. -/
theorem apiCreateBooking_wraps_to_400 (msg : String) :
    serviceCreateBookingO (Except.error msg) =
      ServiceOutcome.coworkingError ("Error creating booking: " ++ msg) ∧
    apiCreateBooking true (Except.error msg) =
      BookingApiResult.failure
        { status := 400,
          detail := "Failed to create booking: " ++
            ("Error creating booking: " ++ msg) } ∧
    (∀ m, routerCreateBookingO true (ServiceOutcome.rawError m) =
      BookingApiResult.failure
        { status := 500,
          detail := "Failed to create booking due to an internal error" }) :=
  ⟨rfl, rfl, fun _ => rfl⟩

/-- C10: the repository-level update and delete operations return the success
flag `True` for every id — also for ids with no row — so the only not-found
signal at the public interface comes from the routers' existence pre-checks
(404 from the pre-check, else 204). -/
theorem repoMutations_always_report_success (edb : EventDB) (cdb : CoworkingDB)
    (eid oid cid now : Nat) (t dsc sd : Option String) (st : Option DateTimeM)
    (loc ip : Option String) (org : Option Nat) :
    (updateEventRepo edb eid t dsc sd st loc ip org now).2 = true ∧
    (deleteEventRepo edb eid).2 = true ∧
    (deleteCoworkingSpaceRepo cdb cid).2 = true ∧
    (deleteOrganizerRepo edb oid).2 = true ∧
    routerDeleteEventStatus edb eid =
      (if (edb.events.find? fun e => e.id == eid).isSome then 204 else 404) := by
  refine ⟨rfl, rfl, rfl, rfl, ?_⟩
  unfold routerDeleteEventStatus
  by_cases h : (edb.events.find? fun e => e.id == eid).isSome <;>
    simp [h, deleteEventRepo]

/-- C6: `update_event` writes exactly the supplied fields — every absent
(`None`) field keeps its prior value, `updated_at` is always set — applying the
patch to the rows matching the id and leaving other rows untouched; a
location-only update changes only location and `updated_at`; and a supplied
organizer id replaces all of the event's link rows with the single new link. -/
theorem updateEvent_frame (db : EventDB) (eid : Nat)
    (t dsc sd : Option String) (st : Option DateTimeM) (loc ip : Option String)
    (org : Option Nat) (now : Nat) :
    (∀ e : EventRow,
       (applyEventUpdate now t dsc sd st loc ip e).id = e.id ∧
       (applyEventUpdate now t dsc sd st loc ip e).createdAt = e.createdAt ∧
       (applyEventUpdate now t dsc sd st loc ip e).updatedAt = now ∧
       (applyEventUpdate now t dsc sd st loc ip e).title = t.getD e.title ∧
       (applyEventUpdate now t dsc sd st loc ip e).description =
         dsc.getD e.description ∧
       (applyEventUpdate now t dsc sd st loc ip e).shortDescription =
         sd.getD e.shortDescription ∧
       (applyEventUpdate now t dsc sd st loc ip e).startDate =
         st.getD e.startDate ∧
       (applyEventUpdate now t dsc sd st loc ip e).location =
         loc.getD e.location ∧
       (∀ p, ip = some p →
         (applyEventUpdate now t dsc sd st loc ip e).imagePath = some p) ∧
       (ip = none →
         (applyEventUpdate now t dsc sd st loc ip e).imagePath = e.imagePath)) ∧
    (∀ e ∈ db.events, e.id = eid →
       applyEventUpdate now t dsc sd st loc ip e ∈
         (updateEventRepo db eid t dsc sd st loc ip org now).1.events) ∧
    (∀ e ∈ db.events, e.id ≠ eid →
       e ∈ (updateEventRepo db eid t dsc sd st loc ip org now).1.events) ∧
    (∀ (L : String) (e : EventRow),
       applyEventUpdate now none none none none (some L) none e =
         { e with location := L, updatedAt := now }) ∧
    (∀ o, org = some o →
       (updateEventRepo db eid t dsc sd st loc ip org now).1.links =
         (db.links.filter fun l => l.eventId != eid) ++
           [{ eventId := eid, organizerId := o }]) ∧
    (org = none →
       (updateEventRepo db eid t dsc sd st loc ip org now).1.links =
         db.links) := by
  refine ⟨?_, ?_, ?_, ?_, ?_, ?_⟩
  · intro e
    refine ⟨rfl, rfl, rfl, rfl, rfl, rfl, rfl, rfl, ?_, ?_⟩
    · intro p hp
      subst hp
      rfl
    · intro hp
      subst hp
      rfl
  · intro e he hid
    have hmem := List.mem_map_of_mem
      (fun e => if e.id == eid then
        applyEventUpdate now t dsc sd st loc ip e else e) he
    simp only [hid, beq_self_eq_true, if_true] at hmem
    exact hmem
  · intro e he hid
    have hmem := List.mem_map_of_mem
      (fun e => if e.id == eid then
        applyEventUpdate now t dsc sd st loc ip e else e) he
    have hne : (e.id == eid) = false := beq_eq_false_iff_ne.mpr hid
    simp only [hne, if_false] at hmem
    exact hmem
  · intro L e
    rfl
  · intro o ho
    subst ho
    rfl
  · intro ho
    subst ho
    rfl

/-- Witness for C6: a location-only update with organizer 3 on the sample
database patches the sample event and replaces its link row. -/
theorem updateEvent_frame_witness :
    applyEventUpdate 7 none none none none (some "newloc") none sampleEvent ∈
      (updateEventRepo sampleEventDB 1 none none none none (some "newloc")
        none (some 3) 7).1.events ∧
    (updateEventRepo sampleEventDB 1 none none none none (some "newloc")
        none (some 3) 7).1.links =
      (sampleEventDB.links.filter fun l => l.eventId != 1) ++
        [{ eventId := 1, organizerId := 3 }] :=
  ⟨(updateEvent_frame sampleEventDB 1 none none none none (some "newloc")
      none (some 3) 7).2.1 sampleEvent (by simp [sampleEventDB]) rfl,
    (updateEvent_frame sampleEventDB 1 none none none none (some "newloc")
      none (some 3) 7).2.2.2.2.1 3 rfl⟩

/-! Helper lemmas for the organizer-resolution claim. -/

lemma map_proj_of_preserving {α β : Type} (l : List α) (f : α → α) (g : α → β)
    (h : ∀ a, g (f a) = g a) : (l.map f).map g = l.map g := by
  induction l with
  | nil => rfl
  | cons a l ih => simp [h, ih]

lemma find?_append_of_none {α : Type} (p : α → Bool) (l1 l2 : List α)
    (h : l1.find? p = none) : (l1 ++ l2).find? p = l2.find? p := by
  rw [find?_eq_filter_head?, List.filter_append,
    filter_eq_nil_of_find?_none p l1 h, List.nil_append, ← find?_eq_filter_head?]

lemma resolveOrganizer_events (db : EventDB) (name : String)
    (od oi : Option String) (oid now : Nat) :
    (resolveOrganizer db name od oi oid now).1.events = db.events := by
  unfold resolveOrganizer
  cases findOrganizerByName db.organizers name with
  | some org =>
      dsimp only
      split <;> rfl
  | none => rfl

lemma resolveOrganizer_links (db : EventDB) (name : String)
    (od oi : Option String) (oid now : Nat) :
    (resolveOrganizer db name od oi oid now).1.links = db.links := by
  unfold resolveOrganizer
  cases findOrganizerByName db.organizers name with
  | some org =>
      dsimp only
      split <;> rfl
  | none => rfl

lemma resolveOrganizer_notfound (db : EventDB) (name : String)
    (od oi : Option String) (oid now : Nat)
    (h : findOrganizerByName db.organizers name = none) :
    resolveOrganizer db name od oi oid now =
      ({ db with organizers := db.organizers ++
          [{ id := oid, name := name, description := od, imagePath := oi,
             createdAt := now, updatedAt := now }] }, oid) := by
  unfold resolveOrganizer
  rw [h]

lemma resolveOrganizer_found (db : EventDB) (name : String)
    (od oi : Option String) (oid now : Nat) (org : OrganizerRow)
    (h : findOrganizerByName db.organizers name = some org) :
    (resolveOrganizer db name od oi oid now).2 = org.id ∧
    (resolveOrganizer db name od oi oid now).1.organizers.map
        (fun o => o.id) = db.organizers.map (fun o => o.id) ∧
    ((isTruthyStr od || isTruthyStr oi) = true →
      updateOrganizerFields od oi now org ∈
        (resolveOrganizer db name od oi oid now).1.organizers) := by
  unfold resolveOrganizer
  rw [h]
  dsimp only
  by_cases hc : (isTruthyStr od || isTruthyStr oi) = true
  · rw [if_pos hc]
    refine ⟨rfl, ?_, fun _ => ?_⟩
    · exact map_proj_of_preserving _ _ _ fun o => by
        by_cases h2 : (o.id == org.id) = true <;>
          simp [h2, updateOrganizerFields]
    · have horgmem : org ∈ db.organizers :=
        List.mem_of_find?_eq_some (by simpa [findOrganizerByName] using h)
      have hm := List.mem_map_of_mem
        (fun o => if o.id == org.id then updateOrganizerFields od oi now o
          else o) horgmem
      simpa using hm
  · rw [if_neg hc]
    exact ⟨rfl, rfl, fun hcc => absurd hcc hc⟩

lemma createEventS_ok_reduce (db : EventDB)
    (title dsc sdesc : String) (st : DateTimeM) (loc : String)
    (ip : Option String) (name : String) (od oi : Option String)
    (oid eid now : Nat)
    (hpre : duplicatePrecheck db.events title st = false)
    (hname : (name == "") = false) :
    createEventS db title dsc sdesc st loc ip (some name) od oi oid eid now
        false InsertOutcome.ok =
      ({ (resolveOrganizer db name od oi oid now).1 with
          events := (resolveOrganizer db name od oi oid now).1.events ++
            [{ id := eid, title := title, description := dsc,
               shortDescription := sdesc, startDate := st, location := loc,
               imagePath := ip, createdAt := now, updatedAt := now }],
          links := (resolveOrganizer db name od oi oid now).1.links ++
            [{ eventId := eid,
               organizerId := (resolveOrganizer db name od oi oid now).2 }] },
        Except.ok eid) := by
  simp [createEventS, hpre, isTruthyStr, hname]

/-- C7: with an organizer name given, `create_event` reuses the first stored
organizer whose name matches exactly — creating no new organizer row, linking
the event to the reused id, and updating the record when a truthy description
or image path is supplied — and creates exactly one new organizer row when no
name matches; hence two successive creations with the same organizer name
leave exactly one organizer row, the second linking to the first call's id. -/
theorem createEvent_organizer_resolution (db : EventDB)
    (t1 dsc1 sd1 : String) (st1 : DateTimeM) (loc1 : String)
    (ip1 : Option String) (name : String) (od oi : Option String)
    (oid1 eid1 now1 : Nat)
    (hname : (name == "") = false)
    (hpre : duplicatePrecheck db.events t1 st1 = false) :
    (∀ org, findOrganizerByName db.organizers name = some org →
      (createEventS db t1 dsc1 sd1 st1 loc1 ip1 (some name) od oi oid1 eid1
          now1 false InsertOutcome.ok).1.organizers.map (fun o => o.id) =
        db.organizers.map (fun o => o.id) ∧
      ({ eventId := eid1, organizerId := org.id } : LinkRow) ∈
        (createEventS db t1 dsc1 sd1 st1 loc1 ip1 (some name) od oi oid1 eid1
          now1 false InsertOutcome.ok).1.links ∧
      ((isTruthyStr od || isTruthyStr oi) = true →
        updateOrganizerFields od oi now1 org ∈
          (createEventS db t1 dsc1 sd1 st1 loc1 ip1 (some name) od oi oid1
            eid1 now1 false InsertOutcome.ok).1.organizers)) ∧
    (findOrganizerByName db.organizers name = none →
      (createEventS db t1 dsc1 sd1 st1 loc1 ip1 (some name) od oi oid1 eid1
          now1 false InsertOutcome.ok).1.organizers =
        db.organizers ++ [{ id := oid1, name := name, description := od,
                            imagePath := oi, createdAt := now1, updatedAt := now1 }] ∧
      ({ eventId := eid1, organizerId := oid1 } : LinkRow) ∈
        (createEventS db t1 dsc1 sd1 st1 loc1 ip1 (some name) od oi oid1 eid1
          now1 false InsertOutcome.ok).1.links) ∧
    (∀ (t2 dsc2 sd2 : String) (st2 : DateTimeM) (loc2 : String)
        (ip2 od2 oi2 : Option String) (oid2 eid2 now2 : Nat),
      findOrganizerByName db.organizers name = none →
      duplicatePrecheck
        (createEventS db t1 dsc1 sd1 st1 loc1 ip1 (some name) od oi oid1 eid1
          now1 false InsertOutcome.ok).1.events t2 st2 = false →
      (createEventS
          (createEventS db t1 dsc1 sd1 st1 loc1 ip1 (some name) od oi oid1
            eid1 now1 false InsertOutcome.ok).1
          t2 dsc2 sd2 st2 loc2 ip2 (some name) od2 oi2 oid2 eid2 now2 false
          InsertOutcome.ok).1.organizers.map (fun o => o.id) =
        db.organizers.map (fun o => o.id) ++ [oid1] ∧
      ({ eventId := eid2, organizerId := oid1 } : LinkRow) ∈
        (createEventS
          (createEventS db t1 dsc1 sd1 st1 loc1 ip1 (some name) od oi oid1
            eid1 now1 false InsertOutcome.ok).1
          t2 dsc2 sd2 st2 loc2 ip2 (some name) od2 oi2 oid2 eid2 now2 false
          InsertOutcome.ok).1.links) := by
  have hred := createEventS_ok_reduce db t1 dsc1 sd1 st1 loc1 ip1 name od oi
    oid1 eid1 now1 hpre hname
  refine ⟨?_, ?_, ?_⟩
  · intro org horg
    obtain ⟨hid, hmapids, hupd⟩ :=
      resolveOrganizer_found db name od oi oid1 now1 org horg
    rw [hred]
    refine ⟨hmapids, ?_, fun hc => hupd hc⟩
    rw [hid]
    exact List.mem_append_right _ (List.mem_singleton.mpr rfl)
  · intro hnone
    have hres := resolveOrganizer_notfound db name od oi oid1 now1 hnone
    rw [hred, hres]
    exact ⟨rfl, List.mem_append_right _ (List.mem_singleton.mpr rfl)⟩
  · intro t2 dsc2 sd2 st2 loc2 ip2 od2 oi2 oid2 eid2 now2 hnone hpre2
    have hres := resolveOrganizer_notfound db name od oi oid1 now1 hnone
    have hS1orgs : (createEventS db t1 dsc1 sd1 st1 loc1 ip1 (some name) od oi
        oid1 eid1 now1 false InsertOutcome.ok).1.organizers =
        db.organizers ++ [{ id := oid1, name := name, description := od,
                            imagePath := oi, createdAt := now1, updatedAt := now1 }] := by
      rw [hred, hres]
    have hfind2 : findOrganizerByName
        (createEventS db t1 dsc1 sd1 st1 loc1 ip1 (some name) od oi oid1 eid1
          now1 false InsertOutcome.ok).1.organizers name =
        some { id := oid1, name := name, description := od, imagePath := oi,
               createdAt := now1, updatedAt := now1 } := by
      rw [hS1orgs]
      unfold findOrganizerByName
      rw [find?_append_of_none _ _ _
        (by simpa [findOrganizerByName] using hnone)]
      rw [List.find?_cons_of_pos _ (by simp)]
    have hred2 := createEventS_ok_reduce
      (createEventS db t1 dsc1 sd1 st1 loc1 ip1 (some name) od oi oid1 eid1
        now1 false InsertOutcome.ok).1
      t2 dsc2 sd2 st2 loc2 ip2 name od2 oi2 oid2 eid2 now2 hpre2 hname
    obtain ⟨hid2, hmap2, -⟩ := resolveOrganizer_found _ name od2 oi2 oid2 now2
      _ hfind2
    have hS1map : (createEventS db t1 dsc1 sd1 st1 loc1 ip1 (some name) od oi
        oid1 eid1 now1 false InsertOutcome.ok).1.organizers.map
        (fun o => o.id) = db.organizers.map (fun o => o.id) ++ [oid1] := by
      rw [hS1orgs]
      simp
    constructor
    · rw [hred2]
      exact hmap2.trans hS1map
    · rw [hred2, hid2]
      exact List.mem_append_right _ (List.mem_singleton.mpr rfl)

/-- Witness for C7: creating "Demo" and then "Other" with organizer name
"Acme" on the empty database yields exactly one organizer row (id 11), the
second event linking to it. -/
theorem createEvent_organizer_resolution_witness :
    (createEventS
        (createEventS emptyEventDB "Demo" "d1" "s1" sampleDT "l1" none
          (some "Acme") none none 11 21 1 false InsertOutcome.ok).1
        "Other" "d2" "s2" sampleDT "l2" none (some "Acme") none none 12 22 2
        false InsertOutcome.ok).1.organizers.map (fun o => o.id) =
      emptyEventDB.organizers.map (fun o => o.id) ++ [11] ∧
    ({ eventId := 22, organizerId := 11 } : LinkRow) ∈
      (createEventS
        (createEventS emptyEventDB "Demo" "d1" "s1" sampleDT "l1" none
          (some "Acme") none none 11 21 1 false InsertOutcome.ok).1
        "Other" "d2" "s2" sampleDT "l2" none (some "Acme") none none 12 22 2
        false InsertOutcome.ok).1.links :=
  (createEvent_organizer_resolution emptyEventDB "Demo" "d1" "s1" sampleDT
      "l1" none "Acme" none none 11 21 1 rfl rfl).2.2
    "Other" "d2" "s2" sampleDT "l2" none none none 12 22 2 rfl rfl

end EventItam
